import Mathlib

/-!
Shallow embedding of the deterministic seed-derivation and memoized
resource-loading subsystem of `t5/data/utils.py`.

The embedding covers:
* the global seed counter `_NEXT_MAP_SEED` (an optional integer),
  the `map_seed_manager` context manager, and the seed-derivation block
  of the `map_over_dataset` decorator's `map_with_seeds` wrapper;
* the `LazyTfdsLoader` class: the `data_dir` property with the process-wide
  `_TFDS_DATA_DIR_OVERRIDE`, the memoized `builder` property, `_map_split`,
  `files` and `size`;
* a small interleaving machine for two concurrent executions of the
  `builder` property body, used to analyse the cache under concurrency.

Python-specific behaviours are embedded explicitly: truthiness tests
(`if _TFDS_DATA_DIR_OVERRIDE:`, `if self._split_map`, `if not files:`) become
explicit emptiness tests, dictionary indexing that may raise `KeyError`
returns `Except`, and `logging.fatal` / `raise ValueError` become error
values of an explicit error type.
-/

namespace T5

/-- Embeds `np.arange(lo, hi)` on integers: the list `[lo, lo+1, …, hi-1]`
(empty when `hi ≤ lo`). -/
def np_arange (lo hi : Int) : List Int :=
  (List.range (hi - lo).toNat).map (fun (i : Nat) => lo + (i : Int))

/-- Embeds `.reshape(-1, 2)` applied to a flat even-length list: consecutive
elements are grouped into pairs.  (On an odd-length list the trailing element
is dropped; `numpy` would raise, but every call site below passes a list of
length `2 * num_seeds`.) -/
def reshape2 {α : Type} : List α → List (α × α)
  | a :: b :: rest => (a, b) :: reshape2 rest
  | _ => []

/-- Embeds the seed-derivation and state-update block of the `wrapped_fn`
closure produced by `map_over_dataset`'s `map_with_seeds`
(`t5/data/utils.py`, lines 316–323).  The argument is the current value of
the global `_NEXT_MAP_SEED`; the result is the tuple `random_ds_seeds`
(each component `None` when the global is `None`) together with the value
of `_NEXT_MAP_SEED` after the call.  The surrounding `tf.data` mapping
machinery consumes the seeds and is outside this core. -/
def map_with_seeds (num_seeds : Nat) (next_map_seed : Option Int) :
    List (Option Int × Option Int) × Option Int :=
  match next_map_seed with
  | none => (List.replicate num_seeds (none, none), none)
  | some s =>
      let random_ds_seeds := reshape2 (np_arange s (s + 2 * num_seeds))
      (random_ds_seeds.map (fun p => (some p.1, some p.2)),
       some (s + 2 * num_seeds))

/-- Embeds the `map_seed_manager` context manager (`t5/data/utils.py`,
lines 270–277) wrapped around a `with`-block body.  The body receives the
global `_NEXT_MAP_SEED` (set to `initial_seed` on entry) and returns its
result together with the global's value when it finishes.  On normal
completion the generator resumes past `yield` and executes
`_NEXT_MAP_SEED = old_map_seed`; when the body raises, the exception is
thrown into the generator at the `yield` point and — there being no
`try`/`finally` — the post-`yield` assignment never runs, so the global
keeps whatever value the body left in it. -/
def map_seed_manager {ε α : Type} (initial_seed : Option Int)
    (body : Option Int → Except ε α × Option Int) (s : Option Int) :
    Except ε α × Option Int :=
  let old_map_seed := s
  match body initial_seed with
  | (Except.ok a, _) => (Except.ok a, old_map_seed)
  | (Except.error e, s2) => (Except.error e, s2)

/-- The integer components of a list of seed pairs, flattened in order. -/
def seed_components (l : List (Option Int × Option Int)) : List (Option Int) :=
  l.flatMap (fun p => [p.1, p.2])

/-- Python truthiness of an optional string: `None` and the empty string are
falsy, every other string is truthy.  Used to embed `if _TFDS_DATA_DIR_OVERRIDE:`
and `if self._data_dir:`. -/
def strTruthy : Option String → Bool
  | none => false
  | some s => !s.isEmpty

/-- Embeds `set_tfds_data_dir_override` (`t5/data/utils.py`, lines 48–50):
the new value of the global `_TFDS_DATA_DIR_OVERRIDE` is exactly the
argument. -/
def set_tfds_data_dir_override (tfds_data_dir : Option String) : Option String :=
  tfds_data_dir

/-- Errors surfaced by the split/shard resolution logic.  `keyError` embeds a
Python `KeyError` raised by dictionary indexing, `valueError` embeds the
`ValueError("Dataset '%s' has multiple configs.")` raised by `files`, and
`fatalNotFound` embeds the process-terminating
`logging.fatal("No TFRecord files found for dataset: %s")`. -/
inductive UtilsError : Type where
  | keyError : String → UtilsError
  | valueError : String → UtilsError
  | fatalNotFound : String → UtilsError
deriving DecidableEq

/-- Metadata of one split of a TFDS dataset, as read from
`builder.info.splits[split]`: its file instructions (kept abstract as a list
of values of an opaque instruction type `ι`) and its declared
`num_examples`. -/
structure SplitInfo (ι : Type) : Type where
  file_instructions : List ι
  num_examples : Int
deriving DecidableEq

/-- The slice of a TFDS builder object that `LazyTfdsLoader` reads:
`BUILDER_CONFIGS` (a list of config names, only its truthiness is used) and
`info.splits`, a dictionary from split name to `SplitInfo`, embedded as an
association list. -/
structure TfdsBuilder (ι : Type) : Type where
  BUILDER_CONFIGS : List String
  splits : List (String × SplitInfo ι)
deriving DecidableEq

/-- Result of `LazyTfdsLoader.size`: either the declared example count or the
`np.inf` sentinel used for very large datasets. -/
inductive DatasetSize : Type where
  | finite : Int → DatasetSize
  | unbounded : DatasetSize
deriving DecidableEq

/-- The memoization key of `LazyTfdsLoader.builder`:
`(self.name, self.data_dir)`. -/
abbrev BuilderKey : Type := String × Option String

namespace LazyTfdsLoader

/-- Embeds the `data_dir` property (`t5/data/utils.py`, lines 94–102).
Arguments are the global `_TFDS_DATA_DIR_OVERRIDE` and the loader's own
`self._data_dir`; the result is the resolved directory together with a flag
recording whether `logging.warning` fired.  The Python truthiness tests are
embedded by `strTruthy`. -/
def data_dir (tfds_data_dir_override self_data_dir : Option String) :
    Option String × Bool :=
  if strTruthy tfds_data_dir_override then
    if strTruthy self_data_dir then (tfds_data_dir_override, true)
    else (tfds_data_dir_override, false)
  else (self_data_dir, false)

/-- Embeds the memoized `builder` property (`t5/data/utils.py`, lines
104–110).  `builder_key` is `(self.name, self.data_dir)`; `tfds_builder`
embeds the external `tfds.builder(...)` call as a state-passing function so
that its invocations are observable in the state `σ`; `memo` is the
class-level `_MEMOIZED_BUILDERS` dictionary, embedded as an association list
whose head shadows older entries exactly as dictionary assignment overwrites.
The returned descriptor is the final `_MEMOIZED_BUILDERS[builder_key]`
lookup (an `Option`, since Python indexing may in general raise). -/
def builder {δ σ : Type} (builder_key : BuilderKey) (tfds_builder : σ → δ × σ)
    (memo : List (BuilderKey × δ)) (st : σ) :
    Option δ × List (BuilderKey × δ) × σ :=
  if (memo.lookup builder_key).isSome then (memo.lookup builder_key, memo, st)
  else
    let r := tfds_builder st
    let memo2 := (builder_key, r.1) :: memo
    (memo2.lookup builder_key, memo2, r.2)

/-- Embeds `_map_split` (`t5/data/utils.py`, lines 116–117):
`return self._split_map[split] if self._split_map else split`.  A `None` or
empty `split_map` is falsy, so `split` is returned unchanged; a non-empty
`split_map` is indexed, raising `KeyError` when `split` is not a key. -/
def _map_split (split_map : Option (List (String × String))) (split : String) :
    Except UtilsError String :=
  match split_map with
  | none => Except.ok split
  | some m =>
      if m.isEmpty then Except.ok split
      else
        match m.lookup split with
        | some v => Except.ok v
        | none => Except.error (UtilsError.keyError split)

/-- Embeds `files` (`t5/data/utils.py`, lines 119–133): maps the split,
raises `ValueError` when the name contains no `/` and the builder has
configs, indexes `info.splits` (a `KeyError` when absent), and treats an
empty `file_instructions` list as the fatal not-found condition
(`logging.fatal` terminates the process, so the empty list is never
returned).  The Python test `"/" not in self.name` is membership of the
single character `/` in the name, embedded on the name's character list. -/
def files {ι : Type} (name : String)
    (split_map : Option (List (String × String))) (b : TfdsBuilder ι)
    (split : String) : Except UtilsError (List ι) :=
  match _map_split split_map split with
  | Except.error e => Except.error e
  | Except.ok split =>
      if !(name.data.contains '/') && !b.BUILDER_CONFIGS.isEmpty then
        Except.error (UtilsError.valueError name)
      else
        match b.splits.lookup split with
        | none => Except.error (UtilsError.keyError split)
        | some split_info =>
            if split_info.file_instructions.isEmpty then
              Except.error (UtilsError.fatalNotFound name)
            else Except.ok split_info.file_instructions

/-- Embeds `size` (`t5/data/utils.py`, lines 159–166): maps the split,
indexes `info.splits`, and returns `num_examples` when it is positive and
the `np.inf` sentinel otherwise. -/
def size {ι : Type} (split_map : Option (List (String × String)))
    (b : TfdsBuilder ι) (split : String) : Except UtilsError DatasetSize :=
  match _map_split split_map split with
  | Except.error e => Except.error e
  | Except.ok split =>
      match b.splits.lookup split with
      | none => Except.error (UtilsError.keyError split)
      | some split_info =>
          Except.ok
            (if split_info.num_examples > 0 then
              DatasetSize.finite split_info.num_examples
            else DatasetSize.unbounded)

end LazyTfdsLoader

/-- Local state of one thread executing the body of the `builder` property.
`pc` records how far the thread has advanced through the statements of the
property body: `0` = about to evaluate `builder_key not in _MEMOIZED_BUILDERS`;
`1` = about to call `tfds.builder(...)`; `2` = about to store the built
descriptor into the dictionary; `3` = about to evaluate the final
`return _MEMOIZED_BUILDERS[builder_key]`; `4` = finished.  `built` is the
thread-local result of its own `tfds.builder` call and `ret` its returned
descriptor. -/
structure ThreadState (δ : Type) : Type where
  pc : Nat
  built : Option δ
  ret : Option δ
deriving DecidableEq

/-- Shared state of two threads racing through the `builder` property body:
the memoization dictionary, the number of completed `tfds.builder`
invocations, and the two thread-local states. -/
structure CacheRace (δ : Type) : Type where
  memo : List (BuilderKey × δ)
  loads : Nat
  t0 : ThreadState δ
  t1 : ThreadState δ
deriving DecidableEq

/-- One atomic step of one thread through the `builder` property body.  The
builder construction is modelled by `tfds_builder`, a function of the number
of loads already performed, so distinct invocations may yield distinct
descriptors.  Each step is one Python statement; between any two statements
the other thread may run, which is exactly the interleaving freedom the
source's lock-free dictionary check-then-insert admits. -/
def builderStep {δ : Type} (k : BuilderKey) (tfds_builder : Nat → δ)
    (memo : List (BuilderKey × δ)) (loads : Nat) (t : ThreadState δ) :
    List (BuilderKey × δ) × Nat × ThreadState δ :=
  match t.pc with
  | 0 =>
      if (memo.lookup k).isSome then (memo, loads, { t with pc := 3 })
      else (memo, loads, { t with pc := 1 })
  | 1 => (memo, loads + 1, { t with built := some (tfds_builder loads), pc := 2 })
  | 2 =>
      match t.built with
      | some b => ((k, b) :: memo, loads, { t with pc := 3 })
      | none => (memo, loads, { t with pc := 3 })
  | 3 => (memo, loads, { t with ret := memo.lookup k, pc := 4 })
  | _ => (memo, loads, t)

/-- Advance the scheduled thread (`false` = thread 0, `true` = thread 1) by
one atomic step. -/
def raceStep {δ : Type} (k : BuilderKey) (tfds_builder : Nat → δ)
    (m : CacheRace δ) (i : Bool) : CacheRace δ :=
  if i then
    let r := builderStep k tfds_builder m.memo m.loads m.t1
    { memo := r.1, loads := r.2.1, t0 := m.t0, t1 := r.2.2 }
  else
    let r := builderStep k tfds_builder m.memo m.loads m.t0
    { memo := r.1, loads := r.2.1, t0 := r.2.2, t1 := m.t1 }

/-- Run the two-thread machine under a schedule (the list of thread choices,
in execution order). -/
def raceRun {δ : Type} (k : BuilderKey) (tfds_builder : Nat → δ)
    (sched : List Bool) (m : CacheRace δ) : CacheRace δ :=
  sched.foldl (raceStep k tfds_builder) m

/-- A thread that has not yet started executing the `builder` body. -/
def freshThread (δ : Type) : ThreadState δ :=
  { pc := 0, built := none, ret := none }

theorem np_arange_add (lo : Int) (n : Nat) :
    np_arange lo (lo + n) = (List.range n).map (fun (i : Nat) => lo + (i : Int)) := by
  unfold np_arange
  have h : (lo + (n : Int) - lo).toNat = n := by omega
  rw [h]

theorem reshape2_map_range {α : Type} (f : Nat → α) (n : Nat) :
    reshape2 ((List.range (2 * n)).map f) =
      (List.range n).map (fun (i : Nat) => (f (2 * i), f (2 * i + 1))) := by
  induction n generalizing f with
  | zero => simp [reshape2]
  | succ n ih =>
      rw [show 2 * (n + 1) = (2 * n + 1) + 1 from by ring]
      rw [List.range_succ_eq_map, List.range_succ_eq_map]
      simp only [List.map_cons, List.map_map]
      rw [reshape2, ih]
      rw [List.range_succ_eq_map]
      simp only [List.map_cons, List.map_map]
      congr 1

theorem flatMap_pairs_range {α : Type} (f : Nat → α) (n : Nat) :
    ((List.range n).map (fun (i : Nat) => (f (2 * i), f (2 * i + 1)))).flatMap
        (fun p => [p.1, p.2]) =
      (List.range (2 * n)).map f := by
  induction n generalizing f with
  | zero => simp
  | succ n ih =>
      rw [List.range_succ_eq_map]
      rw [show 2 * (n + 1) = (2 * n + 1) + 1 from by ring]
      rw [List.range_succ_eq_map, List.range_succ_eq_map]
      simp only [List.map_cons, List.map_map, List.flatMap_cons]
      rw [show ((fun (i : Nat) => (f (2 * i), f (2 * i + 1))) ∘ Nat.succ) =
            (fun (i : Nat) => ((f ∘ Nat.succ ∘ Nat.succ) (2 * i),
              (f ∘ Nat.succ ∘ Nat.succ) (2 * i + 1))) from by
        funext i
        simp only [Function.comp, Nat.succ_eq_add_one, Prod.mk.injEq]
        constructor
        · exact congrArg f (by ring)
        · exact congrArg f (by ring)]
      rw [ih (f ∘ Nat.succ ∘ Nat.succ)]
      rfl

theorem map_with_seeds_some (base : Int) (n : Nat) :
    map_with_seeds n (some base) =
      ((List.range n).map
        (fun (i : Nat) => (some (base + 2 * (i : Int)), some (base + 2 * (i : Int) + 1))),
       some (base + 2 * n)) := by
  show ((reshape2 (np_arange base (base + 2 * (n : Int)))).map
          (fun p => (some p.1, some p.2)), some (base + 2 * (n : Int))) = _
  have hcast : base + 2 * (n : Int) = base + ((2 * n : Nat) : Int) := by push_cast; ring
  rw [hcast, np_arange_add base (2 * n), reshape2_map_range, List.map_map]
  refine Prod.ext ?_ ?_
  · apply List.map_congr_left
    intro i _
    simp only [Function.comp, Prod.mk.injEq]
    constructor
    · push_cast; ring_nf
    · push_cast; ring_nf
  · simp

theorem map_with_seeds_none (n : Nat) :
    map_with_seeds n none = (List.replicate n (none, none), none) := rfl

theorem seed_components_block (base : Int) (n : Nat) :
    seed_components ((List.range n).map
        (fun (i : Nat) => (some (base + 2 * (i : Int)), some (base + 2 * (i : Int) + 1)))) =
      (List.range (2 * n)).map (fun (j : Nat) => some (base + (j : Int))) := by
  unfold seed_components
  rw [show ((fun (i : Nat) =>
        (some (base + 2 * (i : Int)), some (base + 2 * (i : Int) + 1)))) =
      (fun (i : Nat) => ((fun (j : Nat) => some (base + (j : Int))) (2 * i),
        (fun (j : Nat) => some (base + (j : Int))) (2 * i + 1))) from by
    funext i
    simp only [Prod.mk.injEq, Option.some.injEq]
    constructor
    · push_cast; ring
    · push_cast; ring]
  exact flatMap_pairs_range (fun (j : Nat) => some (base + (j : Int))) n

/-- Claim C1: within a scope whose base is `s0`, a first request of `n1`
seed pairs followed by a second of `n2` pairs yields pair `i` of each
request equal to `(base + 2i, base + 2i + 1)`, advances the base by twice
the count after each request, and the flattened integer components of the
two requests are exactly the contiguous block `s0, …, s0 + 2*n1 - 1`
followed by the disjoint contiguous block
`s0 + 2*n1, …, s0 + 2*n1 + 2*n2 - 1`. -/
theorem map_with_seeds_two_blocks (s0 : Int) (n1 n2 : Nat)
    (_h1 : 1 ≤ n1) (_h2 : 1 ≤ n2) :
    (map_with_seeds n1 (some s0)).1 =
      (List.range n1).map
        (fun (i : Nat) => (some (s0 + 2 * (i : Int)), some (s0 + 2 * (i : Int) + 1))) ∧
    (map_with_seeds n1 (some s0)).2 = some (s0 + 2 * n1) ∧
    (map_with_seeds n2 (map_with_seeds n1 (some s0)).2).1 =
      (List.range n2).map
        (fun (i : Nat) =>
          (some (s0 + 2 * n1 + 2 * (i : Int)), some (s0 + 2 * n1 + 2 * (i : Int) + 1))) ∧
    (map_with_seeds n2 (map_with_seeds n1 (some s0)).2).2 =
      some (s0 + 2 * n1 + 2 * n2) ∧
    seed_components (map_with_seeds n1 (some s0)).1 =
      (List.range (2 * n1)).map (fun (j : Nat) => some (s0 + (j : Int))) ∧
    seed_components (map_with_seeds n2 (map_with_seeds n1 (some s0)).2).1 =
      (List.range (2 * n2)).map (fun (j : Nat) => some (s0 + 2 * n1 + (j : Int))) := by
  have hb1 := map_with_seeds_some s0 n1
  have hb2 := map_with_seeds_some (s0 + 2 * n1) n2
  refine ⟨?_, ?_, ?_, ?_, ?_, ?_⟩
  · rw [hb1]
  · rw [hb1]
  · rw [hb1]
    show (map_with_seeds n2 (some (s0 + 2 * n1))).1 = _
    rw [hb2]
  · rw [hb1]
    show (map_with_seeds n2 (some (s0 + 2 * n1))).2 = _
    rw [hb2]
  · rw [hb1]
    exact seed_components_block s0 n1
  · rw [hb1]
    show seed_components (map_with_seeds n2 (some (s0 + 2 * n1))).1 = _
    rw [hb2]
    exact seed_components_block (s0 + 2 * n1) n2

/-- Witness for C1 at `s0 = 5`, `n1 = 2`, `n2 = 1`. -/
theorem map_with_seeds_two_blocks_witness :
    1 ≤ 2 ∧ 1 ≤ 1 ∧
    ((map_with_seeds 2 (some 5)).1 =
      (List.range 2).map
        (fun (i : Nat) => (some (5 + 2 * (i : Int)), some (5 + 2 * (i : Int) + 1))) ∧
    (map_with_seeds 2 (some 5)).2 = some (5 + 2 * (2 : Nat)) ∧
    (map_with_seeds 1 (map_with_seeds 2 (some 5)).2).1 =
      (List.range 1).map
        (fun (i : Nat) =>
          (some (5 + 2 * (2 : Nat) + 2 * (i : Int)),
           some (5 + 2 * (2 : Nat) + 2 * (i : Int) + 1))) ∧
    (map_with_seeds 1 (map_with_seeds 2 (some 5)).2).2 =
      some (5 + 2 * (2 : Nat) + 2 * (1 : Nat)) ∧
    seed_components (map_with_seeds 2 (some 5)).1 =
      (List.range (2 * 2)).map (fun (j : Nat) => some (5 + (j : Int))) ∧
    seed_components (map_with_seeds 1 (map_with_seeds 2 (some 5)).2).1 =
      (List.range (2 * 1)).map
        (fun (j : Nat) => some (5 + 2 * (2 : Nat) + (j : Int)))) :=
  ⟨by decide, by decide, map_with_seeds_two_blocks 5 2 1 (by decide) (by decide)⟩

/-- Claim C2: in the nesting scenario `enterScope(5)`, `nextSeeds(1)`,
`enterScope(100)`, `nextSeeds(1)`, `exitScope`, `nextSeeds(1)`, the three
requests consume `(5,6)`, `(100,101)` and `(7,8)` respectively: exiting the
inner scope restores the outer counter exactly where it left off.  The
scenario is run through the `map_seed_manager` combinator itself, starting
from an unset global seed. -/
theorem map_seed_manager_nesting_scenario :
    map_seed_manager (ε := Unit) (some 5)
      (fun s =>
        let r1 := map_with_seeds 1 s
        let inner := map_seed_manager (ε := Unit) (some 100)
          (fun t =>
            let r2 := map_with_seeds 1 t
            (Except.ok r2.1, r2.2)) r1.2
        match inner.1 with
        | Except.ok p2 =>
            let r3 := map_with_seeds 1 inner.2
            (Except.ok (r1.1, p2, r3.1), r3.2)
        | Except.error e => (Except.error e, inner.2))
      none
    = (Except.ok ([(some 5, some 6)], [(some 100, some 101)], [(some 7, some 8)]),
       none) := by
  rfl

/-- Claim C3 (code bug): the source `map_seed_manager` has no
`try`/`finally` around its `yield`, so when the enclosed work fails the
post-`yield` restoring assignment never runs.  Entering a scope with base 5
from an unset global, consuming one seed pair and then failing leaves the
global at `some 7` — not restored to the pre-entry value `none`. -/
theorem map_seed_manager_error_path_no_restore :
    (map_seed_manager (ε := Unit) (α := Unit) (some 5)
        (fun s =>
          let r := map_with_seeds 1 s
          (Except.error (), r.2)) none).2 = some 7 ∧
    (some 7 : Option Int) ≠ (none : Option Int) ∧
    (map_seed_manager (ε := Unit) (α := Unit) (some 5)
        (fun s =>
          let r := map_with_seeds 1 s
          (Except.ok (), r.2)) none).2 = none := by
  refine ⟨rfl, by decide, rfl⟩

/-- Claim C4: with no active base, every request of `n ≥ 1` seed pairs
returns `n` sentinel pairs with both components unset, and the counter is
unchanged by every such call (so any number `m` of repetitions leaves the
state unset and each repetition returns the sentinels). -/
theorem map_with_seeds_no_scope (n m : Nat) (_h : 1 ≤ n) :
    (fun s => (map_with_seeds n s).2)^[m] none = none ∧
    (map_with_seeds n none).1 = List.replicate n (none, none) ∧
    (map_with_seeds n none).2 = none := by
  refine ⟨Function.iterate_fixed rfl m, rfl, rfl⟩

/-- Witness for C4 at `n = 3`, `m = 2`. -/
theorem map_with_seeds_no_scope_witness :
    1 ≤ 3 ∧
    ((fun s => (map_with_seeds 3 s).2)^[2] none = none ∧
    (map_with_seeds 3 none).1 = List.replicate 3 (none, none) ∧
    (map_with_seeds 3 none).2 = none) :=
  ⟨by decide, map_with_seeds_no_scope 3 2 (by decide)⟩

/-- Claim C5: starting from a memo with `builder_key` absent, the loader is
invoked exactly once across two sequential `builder` calls (the resulting
state is that of a single `tfds_builder` application, and the second call
leaves memo and state untouched), both calls return the descriptor that was
stored; a call with the key already present returns the cached descriptor
without touching the state. -/
theorem builder_memoizes {δ σ : Type} (k : BuilderKey) (f : σ → δ × σ)
    (memo : List (BuilderKey × δ)) (st : σ)
    (h : memo.lookup k = none) :
    (LazyTfdsLoader.builder k f memo st).1 = some (f st).1 ∧
    (LazyTfdsLoader.builder k f memo st).2.1 = (k, (f st).1) :: memo ∧
    (LazyTfdsLoader.builder k f memo st).2.2 = (f st).2 ∧
    LazyTfdsLoader.builder k f (LazyTfdsLoader.builder k f memo st).2.1
        (LazyTfdsLoader.builder k f memo st).2.2
      = (some (f st).1, (k, (f st).1) :: memo, (f st).2) ∧
    (∀ (memo2 : List (BuilderKey × δ)) (st2 : σ) (d : δ),
      memo2.lookup k = some d →
      LazyTfdsLoader.builder k f memo2 st2 = (some d, memo2, st2)) := by
  have hpresent : ∀ (memo2 : List (BuilderKey × δ)) (st2 : σ) (d : δ),
      memo2.lookup k = some d →
      LazyTfdsLoader.builder k f memo2 st2 = (some d, memo2, st2) := by
    intro memo2 st2 d hd
    simp [LazyTfdsLoader.builder, hd]
  have hself : ((k, (f st).1) :: memo).lookup k = some (f st).1 := by
    simp [List.lookup]
  refine ⟨?_, ?_, ?_, ?_, hpresent⟩
  · simp [LazyTfdsLoader.builder, h, hself]
  · simp [LazyTfdsLoader.builder, h]
  · simp [LazyTfdsLoader.builder, h]
  · have h1 : (LazyTfdsLoader.builder k f memo st).2.1 = (k, (f st).1) :: memo := by
      simp [LazyTfdsLoader.builder, h]
    have h2 : (LazyTfdsLoader.builder k f memo st).2.2 = (f st).2 := by
      simp [LazyTfdsLoader.builder, h]
    rw [h1, h2]
    exact hpresent _ _ _ hself

/-- Witness for C5: key `("ds", none)` absent from an empty memo, loader
`fun c => (c * 10, c + 1)` over a counter state starting at 0. -/
theorem builder_memoizes_witness :
    List.lookup (("ds", none) : BuilderKey) ([] : List (BuilderKey × Nat)) = none ∧
    (LazyTfdsLoader.builder ("ds", none) (fun (c : Nat) => (c * 10, c + 1)) [] 0).1
      = some 0 ∧
    (LazyTfdsLoader.builder ("ds", none) (fun (c : Nat) => (c * 10, c + 1)) [] 0).2.1
      = [(("ds", none), 0)] ∧
    (LazyTfdsLoader.builder ("ds", none) (fun (c : Nat) => (c * 10, c + 1)) [] 0).2.2
      = 1 ∧
    LazyTfdsLoader.builder ("ds", none) (fun (c : Nat) => (c * 10, c + 1))
        [(("ds", none), 0)] 1
      = (some 0, [(("ds", none), 0)], 1) :=
  ⟨rfl,
   (builder_memoizes ("ds", none) (fun (c : Nat) => (c * 10, c + 1)) [] 0 rfl).1,
   (builder_memoizes ("ds", none) (fun (c : Nat) => (c * 10, c + 1)) [] 0 rfl).2.1,
   (builder_memoizes ("ds", none) (fun (c : Nat) => (c * 10, c + 1)) [] 0 rfl).2.2.1,
   (builder_memoizes ("ds", none) (fun (c : Nat) => (c * 10, c + 1)) [] 0 rfl).2.2.2.1⟩

/-- Claim C6 counterexample: the `builder` property's check-then-insert on
`_MEMOIZED_BUILDERS` is not guarded by any lock, so two concurrent calls for
a previously-unseen key can interleave (T0 checks, T1 checks, T0 loads,
inserts and returns, T1 loads, inserts and returns): the loader executes
twice and the two calls return different descriptors — refuting "exactly one
loader execution, and all N calls return the same descriptor" at `N = 2`. -/
theorem builder_race_duplicate_load :
    (raceRun ("ds", none) (fun i => i)
        [false, true, false, false, false, true, true, true]
        { memo := [], loads := 0, t0 := freshThread Nat, t1 := freshThread Nat }).loads
      = 2 ∧
    (raceRun ("ds", none) (fun i => i)
        [false, true, false, false, false, true, true, true]
        { memo := [], loads := 0, t0 := freshThread Nat, t1 := freshThread Nat }).t0.ret
      = some 0 ∧
    (raceRun ("ds", none) (fun i => i)
        [false, true, false, false, false, true, true, true]
        { memo := [], loads := 0, t0 := freshThread Nat, t1 := freshThread Nat }).t1.ret
      = some 1 ∧
    (some 0 : Option Nat) ≠ some 1 := by
  refine ⟨rfl, rfl, rfl, by decide⟩

/-- Claim C6 (amended): when the two calls for an absent key are serialized
(the second starts only after the first completes), the loader executes
exactly once, both calls return the single stored descriptor, and the key is
cached; interleaved executions may duplicate construction. -/
theorem builder_race_serialized {δ : Type} (k : BuilderKey) (f : Nat → δ)
    (memo : List (BuilderKey × δ)) (l : Nat)
    (h : memo.lookup k = none) :
    (raceRun k f [false, false, false, false, true, true, true, true]
        { memo := memo, loads := l, t0 := freshThread δ, t1 := freshThread δ }).loads
      = l + 1 ∧
    (raceRun k f [false, false, false, false, true, true, true, true]
        { memo := memo, loads := l, t0 := freshThread δ, t1 := freshThread δ }).t0.ret
      = some (f l) ∧
    (raceRun k f [false, false, false, false, true, true, true, true]
        { memo := memo, loads := l, t0 := freshThread δ, t1 := freshThread δ }).t1.ret
      = some (f l) ∧
    (raceRun k f [false, false, false, false, true, true, true, true]
        { memo := memo, loads := l, t0 := freshThread δ, t1 := freshThread δ }).memo.lookup k
      = some (f l) := by
  have hself : ((k, f l) :: memo).lookup k = some (f l) := by
    simp [List.lookup]
  have e1 : raceStep k f
      { memo := memo, loads := l, t0 := freshThread δ, t1 := freshThread δ } false =
      { memo := memo, loads := l,
        t0 := { pc := 1, built := none, ret := none }, t1 := freshThread δ } := by
    simp [raceStep, builderStep, freshThread, h]
  have e2 : raceStep k f
      { memo := memo, loads := l,
        t0 := { pc := 1, built := none, ret := none }, t1 := freshThread δ } false =
      { memo := memo, loads := l + 1,
        t0 := { pc := 2, built := some (f l), ret := none }, t1 := freshThread δ } := by
    simp [raceStep, builderStep]
  have e3 : raceStep k f
      { memo := memo, loads := l + 1,
        t0 := { pc := 2, built := some (f l), ret := none }, t1 := freshThread δ } false =
      { memo := (k, f l) :: memo, loads := l + 1,
        t0 := { pc := 3, built := some (f l), ret := none }, t1 := freshThread δ } := by
    simp [raceStep, builderStep]
  have e4 : raceStep k f
      { memo := (k, f l) :: memo, loads := l + 1,
        t0 := { pc := 3, built := some (f l), ret := none }, t1 := freshThread δ } false =
      { memo := (k, f l) :: memo, loads := l + 1,
        t0 := { pc := 4, built := some (f l), ret := some (f l) },
        t1 := freshThread δ } := by
    simp [raceStep, builderStep, hself]
  have e5 : raceStep k f
      { memo := (k, f l) :: memo, loads := l + 1,
        t0 := { pc := 4, built := some (f l), ret := some (f l) },
        t1 := freshThread δ } true =
      { memo := (k, f l) :: memo, loads := l + 1,
        t0 := { pc := 4, built := some (f l), ret := some (f l) },
        t1 := { pc := 3, built := none, ret := none } } := by
    simp [raceStep, builderStep, freshThread, hself]
  have e6 : raceStep k f
      { memo := (k, f l) :: memo, loads := l + 1,
        t0 := { pc := 4, built := some (f l), ret := some (f l) },
        t1 := { pc := 3, built := none, ret := none } } true =
      { memo := (k, f l) :: memo, loads := l + 1,
        t0 := { pc := 4, built := some (f l), ret := some (f l) },
        t1 := { pc := 4, built := none, ret := some (f l) } } := by
    simp [raceStep, builderStep, hself]
  have e7 : raceStep k f
      { memo := (k, f l) :: memo, loads := l + 1,
        t0 := { pc := 4, built := some (f l), ret := some (f l) },
        t1 := { pc := 4, built := none, ret := some (f l) } } true =
      { memo := (k, f l) :: memo, loads := l + 1,
        t0 := { pc := 4, built := some (f l), ret := some (f l) },
        t1 := { pc := 4, built := none, ret := some (f l) } } := by
    simp [raceStep, builderStep]
  have hrun : raceRun k f [false, false, false, false, true, true, true, true]
      { memo := memo, loads := l, t0 := freshThread δ, t1 := freshThread δ } =
      { memo := (k, f l) :: memo, loads := l + 1,
        t0 := { pc := 4, built := some (f l), ret := some (f l) },
        t1 := { pc := 4, built := none, ret := some (f l) } } := by
    simp only [raceRun, List.foldl_cons, List.foldl_nil]
    rw [e1, e2, e3, e4, e5, e6, e7, e7]
  rw [hrun]
  exact ⟨rfl, rfl, rfl, hself⟩

/-- Witness for the amended C6 at key `("ds", none)`, loader `fun i => i`,
empty memo and load counter 0. -/
theorem builder_race_serialized_witness :
    List.lookup (("ds", none) : BuilderKey) ([] : List (BuilderKey × Nat)) = none ∧
    ((raceRun ("ds", none) (fun i => i)
        [false, false, false, false, true, true, true, true]
        { memo := [], loads := 0, t0 := freshThread Nat, t1 := freshThread Nat }).loads
      = 0 + 1 ∧
    (raceRun ("ds", none) (fun i => i)
        [false, false, false, false, true, true, true, true]
        { memo := [], loads := 0, t0 := freshThread Nat, t1 := freshThread Nat }).t0.ret
      = some 0 ∧
    (raceRun ("ds", none) (fun i => i)
        [false, false, false, false, true, true, true, true]
        { memo := [], loads := 0, t0 := freshThread Nat, t1 := freshThread Nat }).t1.ret
      = some 0 ∧
    (raceRun ("ds", none) (fun i => i)
        [false, false, false, false, true, true, true, true]
        { memo := [], loads := 0, t0 := freshThread Nat, t1 := freshThread Nat }).memo.lookup
        ("ds", none)
      = some 0) :=
  ⟨rfl, builder_race_serialized ("ds", none) (fun i => i) [] 0 rfl⟩

/-- Claim C7 counterexample: the claim says the warning occurs exactly when
both the override and the loader's own directory are set and differ; with
override and directory both `"d"` (set and equal) the code still warns, so
the "and differ" condition is refuted. -/
theorem data_dir_warning_without_differ :
    ¬ (((LazyTfdsLoader.data_dir (some "d") (some "d")).2 = true) ↔
        (("d" : String) ≠ "d")) := by
  decide

/-- Claim C7 (amended): when the override is set (non-empty), resolution
returns the override and the warning fires exactly when the loader's own
directory is also set (non-empty) — regardless of whether the two differ;
when the override is unset or empty, resolution returns the loader's own
directory and no warning fires. -/
theorem data_dir_resolution (o d : Option String) :
    LazyTfdsLoader.data_dir o d =
      ((if strTruthy o then o else d), strTruthy o && strTruthy d) := by
  unfold LazyTfdsLoader.data_dir
  cases ho : strTruthy o <;> cases hd : strTruthy d <;> simp [ho, hd]

/-- Claim C8 counterexample: a loader whose split map is the non-empty
dictionary `{"validation": "train[:1%]"}` does not resolve the absent name
`"test"` to itself — `self._split_map["test"]` raises `KeyError`. -/
theorem map_split_keyerror_on_missing :
    LazyTfdsLoader._map_split (some [("validation", "train[:1%]")]) "test"
      = Except.error (UtilsError.keyError "test") ∧
    LazyTfdsLoader._map_split (some [("validation", "train[:1%]")]) "test"
      ≠ Except.ok "test" := by
  constructor
  · rfl
  · intro hcontra
    rw [show LazyTfdsLoader._map_split (some [("validation", "train[:1%]")]) "test"
          = Except.error (UtilsError.keyError "test") from rfl] at hcontra
    exact Except.noConfusion hcontra

/-- Claim C8 (amended): split resolution returns the mapped expression when
the name is a key of a non-empty split map; it returns the name unchanged
when the split map is absent or empty; when the map is non-empty and the
name is not a key, indexing raises `KeyError` instead of passing the name
through. -/
theorem map_split_resolution (split : String) :
    (LazyTfdsLoader._map_split none split = Except.ok split) ∧
    (LazyTfdsLoader._map_split (some []) split = Except.ok split) ∧
    (∀ (m : List (String × String)) (v : String),
      m.isEmpty = false → m.lookup split = some v →
      LazyTfdsLoader._map_split (some m) split = Except.ok v) ∧
    (∀ (m : List (String × String)),
      m.isEmpty = false → m.lookup split = none →
      LazyTfdsLoader._map_split (some m) split
        = Except.error (UtilsError.keyError split)) := by
  refine ⟨rfl, rfl, ?_, ?_⟩
  · intro m v hm hv
    simp [LazyTfdsLoader._map_split, hm, hv]
  · intro m hm hv
    simp [LazyTfdsLoader._map_split, hm, hv]

/-- Witness for the amended C8: the mapped name `"validation"` resolves to
`"train[:1%]"` under the split map of the claim. -/
theorem map_split_resolution_witness :
    ([("validation", "train[:1%]")] : List (String × String)).isEmpty = false ∧
    List.lookup "validation" ([("validation", "train[:1%]")] : List (String × String))
      = some "train[:1%]" ∧
    LazyTfdsLoader._map_split (some [("validation", "train[:1%]")]) "validation"
      = Except.ok "train[:1%]" :=
  ⟨rfl, rfl,
   (map_split_resolution "validation").2.2.1 [("validation", "train[:1%]")]
     "train[:1%]" rfl rfl⟩

/-- Claim C9: for a split that resolves (no `KeyError`) on a builder with no
config ambiguity, an empty file-instruction list makes `files` surface the
fatal not-found condition — never a silently empty sequence — and a
non-empty list is returned as-is. -/
theorem files_resolution {ι : Type} (name : String)
    (split_map : Option (List (String × String))) (b : TfdsBuilder ι)
    (split s2 : String) (si : SplitInfo ι)
    (hmap : LazyTfdsLoader._map_split split_map split = Except.ok s2)
    (hcfg : '/' ∈ name.data ∨ b.BUILDER_CONFIGS = [])
    (hsi : b.splits.lookup s2 = some si) :
    (si.file_instructions = [] →
      LazyTfdsLoader.files name split_map b split
        = Except.error (UtilsError.fatalNotFound name)) ∧
    (si.file_instructions ≠ [] →
      LazyTfdsLoader.files name split_map b split = Except.ok si.file_instructions) := by
  have hcond : (!(name.data.contains '/') && !b.BUILDER_CONFIGS.isEmpty) = false := by
    rcases hcfg with hmem | hnil
    · have hc : name.data.contains '/' = true := List.elem_eq_true_of_mem hmem
      rw [hc]
      rfl
    · rw [hnil]
      simp
  have hfiles : LazyTfdsLoader.files name split_map b split =
      (match b.splits.lookup s2 with
      | none => Except.error (UtilsError.keyError s2)
      | some split_info =>
          if split_info.file_instructions.isEmpty then
            Except.error (UtilsError.fatalNotFound name)
          else Except.ok split_info.file_instructions) := by
    unfold LazyTfdsLoader.files
    rw [hmap]
    show (if !(name.data.contains '/') && !b.BUILDER_CONFIGS.isEmpty then
          Except.error (UtilsError.valueError name)
        else
          match b.splits.lookup s2 with
          | none => Except.error (UtilsError.keyError s2)
          | some split_info =>
              if split_info.file_instructions.isEmpty then
                Except.error (UtilsError.fatalNotFound name)
              else Except.ok split_info.file_instructions) = _
    rw [hcond]
    exact if_neg (by decide)
  rw [hfiles, hsi]
  constructor
  · intro hempty
    simp [hempty]
  · intro hnonempty
    cases hfi : si.file_instructions with
    | nil => exact absurd hfi hnonempty
    | cons a as => simp [hfi]

/-- Witness for C9: a single-config dataset `"c/en"` whose `"train"` split
has zero file instructions surfaces the fatal not-found error. -/
theorem files_resolution_witness :
    LazyTfdsLoader._map_split none "train" = Except.ok "train" ∧
    ('/' ∈ "c/en".data ∨ (["cfg"] : List String) = []) ∧
    List.lookup "train"
        ([("train", ({ file_instructions := [], num_examples := 0 } : SplitInfo Nat))])
      = some { file_instructions := [], num_examples := 0 } ∧
    ({ file_instructions := [], num_examples := 0 } : SplitInfo Nat).file_instructions
      = [] ∧
    LazyTfdsLoader.files "c/en" none
        ({ BUILDER_CONFIGS := ["cfg"],
           splits := [("train", { file_instructions := [], num_examples := 0 })] }
          : TfdsBuilder Nat) "train"
      = Except.error (UtilsError.fatalNotFound "c/en") :=
  ⟨rfl, by decide, rfl, rfl,
   (files_resolution "c/en" none
      ({ BUILDER_CONFIGS := ["cfg"],
         splits := [("train", { file_instructions := [], num_examples := 0 })] }
        : TfdsBuilder Nat) "train" "train"
      { file_instructions := [], num_examples := 0 } rfl (by decide) rfl).1 rfl⟩

/-- Claim C10: for a split that resolves to split metadata, the size query
returns the declared count when it is positive and the `np.inf` sentinel
(distinguishable from zero) whenever the declared count is non-positive; in
particular a declared count of 0 reports the sentinel, not 0. -/
theorem size_resolution {ι : Type} (split_map : Option (List (String × String)))
    (b : TfdsBuilder ι) (split s2 : String) (si : SplitInfo ι)
    (hmap : LazyTfdsLoader._map_split split_map split = Except.ok s2)
    (hsi : b.splits.lookup s2 = some si) :
    (0 < si.num_examples →
      LazyTfdsLoader.size split_map b split
        = Except.ok (DatasetSize.finite si.num_examples)) ∧
    (si.num_examples ≤ 0 →
      LazyTfdsLoader.size split_map b split = Except.ok DatasetSize.unbounded) ∧
    DatasetSize.unbounded ≠ DatasetSize.finite 0 := by
  refine ⟨?_, ?_, by decide⟩
  · intro hpos
    simp [LazyTfdsLoader.size, hmap, hsi]
    omega
  · intro hnonpos
    simp [LazyTfdsLoader.size, hmap, hsi]
    omega

/-- Witness for C10: a `"train"` split with declared count 0 reports the
unbounded sentinel. -/
theorem size_resolution_witness :
    LazyTfdsLoader._map_split none "train" = Except.ok "train" ∧
    List.lookup "train"
        ([("train", ({ file_instructions := [], num_examples := 0 } : SplitInfo Nat))])
      = some { file_instructions := [], num_examples := 0 } ∧
    ((0 : Int) ≤ 0) ∧
    LazyTfdsLoader.size none
        ({ BUILDER_CONFIGS := [],
           splits := [("train", { file_instructions := [], num_examples := 0 })] }
          : TfdsBuilder Nat) "train"
      = Except.ok DatasetSize.unbounded :=
  ⟨rfl, rfl, by decide,
   (size_resolution none
      ({ BUILDER_CONFIGS := [],
         splits := [("train", { file_instructions := [], num_examples := 0 })] }
        : TfdsBuilder Nat) "train" "train"
      { file_instructions := [], num_examples := 0 } rfl rfl).2.1 (by decide)⟩

end T5
